import Mathlib

/-!
A verification development for the `tws_autorebalance` repository.

The repository's risk layer (`src/security.py`) and the application layer
(`src/app/autorebalance.py`) are embedded shallowly: pure Python functions
become Lean functions over `ℚ` (Python floats at the magnitudes the policy
uses compare identically to rationals), fallible code returns `Option` /
`Except`, the interactive confirmation prompt becomes an explicit answer
parameter, and side-effecting broker calls become events in an explicit
trace.  The order-manager operations live in `src/model/data.py`, a module
the snapshot does not ship; they are modelled from the specification's
contract for them and are marked as such in their doc comments.
-/

/-! ## Risk policy (`src/security.py`) -/

/-- The comparison operator a three-tier rule carries: `operator.gt` for
maximum-family rules, `operator.lt` for minimum-family rules. -/
inductive CmpDir where
  | gtOp : CmpDir
  | ltOp : CmpDir
deriving DecidableEq, Repr

/-- Application of the rule's `cmp_op` to `(val, level)`. -/
def cmpApply : CmpDir → ℚ → ℚ → Bool
  | CmpDir.gtOp, a, b => decide (a > b)
  | CmpDir.ltOp, a, b => decide (a < b)

/-- `ThreeTierGeneric` of `src/security.py`: a named rule with block, confirm
and notify levels, a confirmation message and a comparison direction. -/
structure ThreeTierGeneric where
  name : String
  block_level : ℚ
  confirm_level : ℚ
  notify_level : ℚ
  confirm_msg : String
  cmp_op : CmpDir
deriving DecidableEq, Repr

/-- The tier a `validate` call reaches, i.e. which log line it emits:
`confirmT` logs the warning "permitted on override", `notifyT` logs at info,
`debugT` logs at debug.  Exactly one log line per call. -/
inductive Tier where
  | confirmT : Tier
  | notifyT : Tier
  | debugT : Tier
deriving DecidableEq, Repr

/-- Outcome of `ThreeTierGeneric.validate`: either a `SecurityFault` is
raised (`fault prompted`, where `prompted` records whether the interactive
confirmation prompt ran and was declined) or the value is returned
(`ok v tier`, the log line at `tier`). -/
inductive ValidateOutcome where
  | fault : Bool → ValidateOutcome
  | ok : ℚ → Tier → ValidateOutcome
deriving DecidableEq, Repr

/-- `ThreeTierGeneric.validate` of `src/security.py`.  The blocking
interactive prompt of `_confirm_danger` is embedded as the answer string
`ans` supplied by the environment: any answer other than the exact token
"YES" raises `SecurityFault`. -/
def ThreeTierGeneric.validate (r : ThreeTierGeneric) (ans : String) (v : ℚ) :
    ValidateOutcome :=
  if cmpApply r.cmp_op v r.block_level then ValidateOutcome.fault false
  else if cmpApply r.cmp_op v r.confirm_level then
    if ans = "YES" then ValidateOutcome.ok v Tier.confirmT
    else ValidateOutcome.fault true
  else if cmpApply r.cmp_op v r.notify_level then ValidateOutcome.ok v Tier.notifyT
  else ValidateOutcome.ok v Tier.debugT

/-- `ThreeTierNMax.__init__` plus `__post_init__`: a maximum-family rule is
constructed with `cmp_op = operator.gt`, and its constructor asserts
`block_level > confirm_level` (and nothing else).  `none` models the
assertion failing. -/
def mkThreeTierNMax (nm : String) (b c n : ℚ) (msg : String) :
    Option ThreeTierGeneric :=
  if b > c then some ⟨nm, b, c, n, msg, CmpDir.gtOp⟩ else none

/-- `ThreeTierNMin.__init__` plus `__post_init__`: a minimum-family rule is
constructed with `cmp_op = operator.lt`, and its constructor asserts
`block_level < confirm_level` (and nothing else). -/
def mkThreeTierNMin (nm : String) (b c n : ℚ) (msg : String) :
    Option ThreeTierGeneric :=
  if b < c then some ⟨nm, b, c, n, msg, CmpDir.ltOp⟩ else none

namespace Policy

/-- `Policy.MARGIN_USAGE` of `src/security.py`. -/
def MARGIN_USAGE : ThreeTierGeneric :=
  ⟨"MARGIN USAGE", 0.80, 0.60, 0.40, "High margin usage.", CmpDir.gtOp⟩

/-- `Policy.MARGIN_REQ` of `src/security.py`. -/
def MARGIN_REQ : ThreeTierGeneric :=
  ⟨"MARGIN REQ", 0.15, 0.20, 0.25, "Low margin requirement.", CmpDir.ltOp⟩

/-- `Policy.LOAN_AMT` of `src/security.py`. -/
def LOAN_AMT : ThreeTierGeneric :=
  ⟨"LOAN AMOUNT", 100000, 75000, 50000, "Large loan size.", CmpDir.gtOp⟩

/-- `Policy.MISALLOCATION` of `src/security.py`. -/
def MISALLOCATION : ThreeTierGeneric :=
  ⟨"MISALLOCATION", 0.003, 0.001, 0.0003, "Misallocated portfolio.", CmpDir.gtOp⟩

/-- `Policy.ORDER_QTY` of `src/security.py`. -/
def ORDER_QTY : ThreeTierGeneric :=
  ⟨"ORDER SIZE", 250, 100, 50, "Large order size.", CmpDir.gtOp⟩

/-- `Policy.ORDER_TOTAL` of `src/security.py`. -/
def ORDER_TOTAL : ThreeTierGeneric :=
  ⟨"ORDER TOTAL", 50000, 5000, 1000, "Large order amount.", CmpDir.gtOp⟩

/-- `Policy.MISALLOC_DOLLARS` of `src/security.py`. -/
def MISALLOC_DOLLARS : ThreeTierGeneric :=
  ⟨"MISALLOC $ MIN", 200, 400, 600, "Small dollar rebalance threshold.",
    CmpDir.ltOp⟩

/-- `Policy.REBALANCE_TRIGGER` of `src/security.py`. -/
def REBALANCE_TRIGGER : ThreeTierGeneric :=
  ⟨"REBALANCE TRIGGER % MIN", 0.5, 0.75, 1.0, "Small rebalance trigger.",
    CmpDir.ltOp⟩

/-- `Policy.ATH_MARGIN_USE` of `src/security.py`. -/
def ATH_MARGIN_USE : ThreeTierGeneric :=
  ⟨"ATH MARGIN USER", 0.3, 0.2, 0.0, "High ATH margin usage.", CmpDir.gtOp⟩

/-- `Policy.DRAWDOWN_COEFFICIENT` of `src/security.py`. -/
def DRAWDOWN_COEFFICIENT : ThreeTierGeneric :=
  ⟨"DRAWDOWN COEFFICIENT", 2.0, 1.5, 0.5, "High drawdown coefficient.",
    CmpDir.gtOp⟩

/-- Python attribute lookup on the `Policy` class, restricted to its
rule-valued attributes: `Policy.<a>` succeeds exactly for the ten rules the
class body of `src/security.py` defines; any other attribute name raises
`AttributeError`, modelled by `none`. -/
def attr : String → Option ThreeTierGeneric
  | "MARGIN_USAGE" => some MARGIN_USAGE
  | "MARGIN_REQ" => some MARGIN_REQ
  | "LOAN_AMT" => some LOAN_AMT
  | "MISALLOCATION" => some MISALLOCATION
  | "ORDER_QTY" => some ORDER_QTY
  | "ORDER_TOTAL" => some ORDER_TOTAL
  | "MISALLOC_DOLLARS" => some MISALLOC_DOLLARS
  | "REBALANCE_TRIGGER" => some REBALANCE_TRIGGER
  | "ATH_MARGIN_USE" => some ATH_MARGIN_USE
  | "DRAWDOWN_COEFFICIENT" => some DRAWDOWN_COEFFICIENT
  | _ => none

end Policy

/-- C1: for every three-tier rule, `validate` raises a `SecurityFault`
whenever the value crosses the block level in the rule's danger direction;
if it crosses the confirm level but not the block level it blocks on one
interactive prompt and raises unless the answer is exactly "YES", returning
the value when it is; otherwise it returns the value without prompting.
For `Policy.MARGIN_USAGE` (block 0.80, confirm 0.60, notify 0.40):
`validate 0.85` raises, `validate 0.70` returns 0.70 exactly when confirmed,
and `validate 0.50` and `validate 0.10` return the value unprompted. -/
theorem validate_three_tier_contract (r : ThreeTierGeneric) (ans : String)
    (v : ℚ) :
    (cmpApply r.cmp_op v r.block_level = true →
      r.validate ans v = ValidateOutcome.fault false) ∧
    (cmpApply r.cmp_op v r.block_level = false →
      cmpApply r.cmp_op v r.confirm_level = true →
      r.validate ans v =
        (if ans = "YES" then ValidateOutcome.ok v Tier.confirmT
         else ValidateOutcome.fault true)) ∧
    (cmpApply r.cmp_op v r.block_level = false →
      cmpApply r.cmp_op v r.confirm_level = false →
      r.validate ans v = ValidateOutcome.ok v Tier.notifyT ∨
      r.validate ans v = ValidateOutcome.ok v Tier.debugT) ∧
    Policy.MARGIN_USAGE.validate ans 0.85 = ValidateOutcome.fault false ∧
    Policy.MARGIN_USAGE.validate "YES" 0.70 =
      ValidateOutcome.ok 0.70 Tier.confirmT ∧
    (ans ≠ "YES" →
      Policy.MARGIN_USAGE.validate ans 0.70 = ValidateOutcome.fault true) ∧
    Policy.MARGIN_USAGE.validate ans 0.50 =
      ValidateOutcome.ok 0.50 Tier.notifyT ∧
    Policy.MARGIN_USAGE.validate ans 0.10 =
      ValidateOutcome.ok 0.10 Tier.debugT := by
  refine ⟨?_, ?_, ?_, ?_, ?_, ?_, ?_, ?_⟩
  · intro hb
    simp [ThreeTierGeneric.validate, hb]
  · intro hb hc
    simp [ThreeTierGeneric.validate, hb, hc]
  · intro hb hc
    by_cases hn : cmpApply r.cmp_op v r.notify_level = true
    · left; simp [ThreeTierGeneric.validate, hb, hc, hn]
    · right
      simp only [Bool.not_eq_true] at hn
      simp [ThreeTierGeneric.validate, hb, hc, hn]
  · norm_num [ThreeTierGeneric.validate, Policy.MARGIN_USAGE, cmpApply]
  · norm_num [ThreeTierGeneric.validate, Policy.MARGIN_USAGE, cmpApply]
  · intro hne
    norm_num [ThreeTierGeneric.validate, Policy.MARGIN_USAGE, cmpApply, hne]
  · norm_num [ThreeTierGeneric.validate, Policy.MARGIN_USAGE, cmpApply]
  · norm_num [ThreeTierGeneric.validate, Policy.MARGIN_USAGE, cmpApply]

/-- C7 counterexample: the maximum-family constructor only asserts
`block_level > confirm_level`, so a rule whose notify level violates the
family ordering (here notify 5 above confirm 2) is constructed successfully:
the claim that construction of a rule violating its family's ordering fails
is false. -/
theorem max_rule_violating_ordering_constructs :
    (mkThreeTierNMax "X" 3 2 5 "m").isSome = true ∧ ¬((2 : ℚ) > 5) := by
  constructor
  · norm_num [mkThreeTierNMax]
  · norm_num

/-- C7 amended: the maximum-family constructor succeeds exactly when
`block_level > confirm_level` and fixes the greater-than comparison, the
minimum-family constructor succeeds exactly when `block_level <
confirm_level` and fixes the less-than comparison (the notify level is not
checked by either constructor); and every rule of the `Policy` catalogue
does satisfy the full ordering of its family. -/
theorem rule_family_ordering_policy :
    (∀ nm (b c n : ℚ) msg, (mkThreeTierNMax nm b c n msg).isSome ↔ b > c) ∧
    (∀ nm (b c n : ℚ) msg (r : ThreeTierGeneric),
      mkThreeTierNMax nm b c n msg = some r → r.cmp_op = CmpDir.gtOp) ∧
    (∀ nm (b c n : ℚ) msg, (mkThreeTierNMin nm b c n msg).isSome ↔ b < c) ∧
    (∀ nm (b c n : ℚ) msg (r : ThreeTierGeneric),
      mkThreeTierNMin nm b c n msg = some r → r.cmp_op = CmpDir.ltOp) ∧
    (Policy.MARGIN_USAGE.block_level > Policy.MARGIN_USAGE.confirm_level ∧
      Policy.MARGIN_USAGE.confirm_level > Policy.MARGIN_USAGE.notify_level ∧
      Policy.MARGIN_USAGE.cmp_op = CmpDir.gtOp) ∧
    (Policy.LOAN_AMT.block_level > Policy.LOAN_AMT.confirm_level ∧
      Policy.LOAN_AMT.confirm_level > Policy.LOAN_AMT.notify_level ∧
      Policy.LOAN_AMT.cmp_op = CmpDir.gtOp) ∧
    (Policy.MISALLOCATION.block_level > Policy.MISALLOCATION.confirm_level ∧
      Policy.MISALLOCATION.confirm_level > Policy.MISALLOCATION.notify_level ∧
      Policy.MISALLOCATION.cmp_op = CmpDir.gtOp) ∧
    (Policy.ORDER_QTY.block_level > Policy.ORDER_QTY.confirm_level ∧
      Policy.ORDER_QTY.confirm_level > Policy.ORDER_QTY.notify_level ∧
      Policy.ORDER_QTY.cmp_op = CmpDir.gtOp) ∧
    (Policy.ORDER_TOTAL.block_level > Policy.ORDER_TOTAL.confirm_level ∧
      Policy.ORDER_TOTAL.confirm_level > Policy.ORDER_TOTAL.notify_level ∧
      Policy.ORDER_TOTAL.cmp_op = CmpDir.gtOp) ∧
    (Policy.ATH_MARGIN_USE.block_level > Policy.ATH_MARGIN_USE.confirm_level ∧
      Policy.ATH_MARGIN_USE.confirm_level > Policy.ATH_MARGIN_USE.notify_level ∧
      Policy.ATH_MARGIN_USE.cmp_op = CmpDir.gtOp) ∧
    (Policy.DRAWDOWN_COEFFICIENT.block_level >
        Policy.DRAWDOWN_COEFFICIENT.confirm_level ∧
      Policy.DRAWDOWN_COEFFICIENT.confirm_level >
        Policy.DRAWDOWN_COEFFICIENT.notify_level ∧
      Policy.DRAWDOWN_COEFFICIENT.cmp_op = CmpDir.gtOp) ∧
    (Policy.MARGIN_REQ.block_level < Policy.MARGIN_REQ.confirm_level ∧
      Policy.MARGIN_REQ.confirm_level < Policy.MARGIN_REQ.notify_level ∧
      Policy.MARGIN_REQ.cmp_op = CmpDir.ltOp) ∧
    (Policy.MISALLOC_DOLLARS.block_level < Policy.MISALLOC_DOLLARS.confirm_level ∧
      Policy.MISALLOC_DOLLARS.confirm_level <
        Policy.MISALLOC_DOLLARS.notify_level ∧
      Policy.MISALLOC_DOLLARS.cmp_op = CmpDir.ltOp) ∧
    (Policy.REBALANCE_TRIGGER.block_level <
        Policy.REBALANCE_TRIGGER.confirm_level ∧
      Policy.REBALANCE_TRIGGER.confirm_level <
        Policy.REBALANCE_TRIGGER.notify_level ∧
      Policy.REBALANCE_TRIGGER.cmp_op = CmpDir.ltOp) := by
  refine ⟨?_, ?_, ?_, ?_, ?_, ?_, ?_, ?_, ?_, ?_, ?_, ?_, ?_, ?_⟩
  · intro nm b c n msg
    by_cases h : b > c <;> simp [mkThreeTierNMax, h]
  · intro nm b c n msg r hr
    by_cases h : b > c <;> simp [mkThreeTierNMax, h] at hr
    exact hr ▸ rfl
  · intro nm b c n msg
    by_cases h : b < c <;> simp [mkThreeTierNMin, h]
  · intro nm b c n msg r hr
    by_cases h : b < c <;> simp [mkThreeTierNMin, h] at hr
    exact hr ▸ rfl
  all_goals refine ⟨by norm_num [Policy.MARGIN_USAGE, Policy.LOAN_AMT,
    Policy.MISALLOCATION, Policy.ORDER_QTY, Policy.ORDER_TOTAL,
    Policy.ATH_MARGIN_USE, Policy.DRAWDOWN_COEFFICIENT, Policy.MARGIN_REQ,
    Policy.MISALLOC_DOLLARS, Policy.REBALANCE_TRIGGER], by norm_num
    [Policy.MARGIN_USAGE, Policy.LOAN_AMT, Policy.MISALLOCATION,
    Policy.ORDER_QTY, Policy.ORDER_TOTAL, Policy.ATH_MARGIN_USE,
    Policy.DRAWDOWN_COEFFICIENT, Policy.MARGIN_REQ, Policy.MISALLOC_DOLLARS,
    Policy.REBALANCE_TRIGGER], rfl⟩

/-! ## Orders and the audit gate (`src/security.py::audit_order`) -/

/-- The fields of an `ibapi` `Order` that the audit and placement paths
read: the order type string, the transmit flag, the outside-regular-
trading-hours flag, and `audited`, which models the presence of the
`_audited` attribute (absent, i.e. `false`, until `audit_order` sets it). -/
structure IBOrder where
  orderType : String
  transmit : Bool
  outsideRth : Bool
  audited : Bool
deriving DecidableEq, Repr

/-- `audit_order` of `src/security.py`: the order passes audit iff its type
is "MIDPRICE", the process is armed or the order does not transmit, and it
does not route outside regular trading hours; on success the `_audited`
marker is set and the order returned, otherwise the assertion fails
(`none`). -/
def audit_order (armed : Bool) (o : IBOrder) : Option IBOrder :=
  if (o.orderType = "MIDPRICE") ∧ (armed = true ∨ o.transmit = false) ∧
      o.outsideRth = false then
    some { o with audited := true }
  else none

/-! ## Order manager (`src/model/data.py`, not shipped in this snapshot) -/

/-- Instrument identity: the normalized, hashable key of `SimpleContract`. -/
abbrev SimpleContract := String

/-- The order lifecycle states of the Order Manager. -/
inductive OMState where
  | PENDING : OMState
  | TRANSMITTED : OMState
  | COOLOFF : OMState
deriving DecidableEq, Repr

/-- One Order Manager entry: broker order id, the order, and its state. -/
structure OMEntry where
  oid : Nat
  order : IBOrder
  state : OMState
deriving DecidableEq, Repr

/-- The Order Manager book: at most one entry per instrument, kept as an
association list keyed by instrument identity. -/
abbrev OrderManager := List (SimpleContract × OMEntry)

/-- Entry lookup by instrument. -/
def omLookup (om : OrderManager) (sc : SimpleContract) : Option OMEntry :=
  (om.find? (fun p => p.1 = sc)).map (fun p => p.2)

/-- Replacement of the entry of `sc` (no change when `sc` has no entry). -/
def omSet (om : OrderManager) (sc : SimpleContract) (e : OMEntry) :
    OrderManager :=
  om.map (fun p => if p.1 = sc then (sc, e) else p)

/-- Modelled from the spec: `OrderManager.get_nc` of `src/model/data.py`
(absent from src/) — the instrument of the entry holding broker order id
`oid`, when one exists. -/
def get_nc (om : OrderManager) (oid : Nat) : Option SimpleContract :=
  (om.find? (fun p => p.2.oid = oid)).map (fun p => p.1)

/-- Modelled from the spec: `OrderManager.get_order` of `src/model/data.py`
(absent from src/) — a read accessor for the entry's order. -/
def get_order (om : OrderManager) (sc : SimpleContract) : Option IBOrder :=
  (omLookup om sc).map (fun e => e.order)

/-- Modelled from the spec: `OrderManager.get_state` of `src/model/data.py`
(absent from src/) — a read accessor for the entry's state. -/
def get_state (om : OrderManager) (sc : SimpleContract) : Option OMState :=
  (omLookup om sc).map (fun e => e.state)

/-- Modelled from the spec: `OrderManager.enter_order` of
`src/model/data.py` (absent from src/) — creates a `PENDING` entry iff no
entry exists for the instrument in any state; `none` models the `False`
return with no mutation. -/
def enter_order (om : OrderManager) (sc : SimpleContract) (oid : Nat)
    (o : IBOrder) : Option OrderManager :=
  if (omLookup om sc).isSome then none
  else some ((sc, ⟨oid, o, OMState.PENDING⟩) :: om)

/-- Modelled from the spec: `OrderManager.transmit_order` of
`src/model/data.py` (absent from src/) — moves `PENDING` to `TRANSMITTED`;
idempotent-safe when already `TRANSMITTED` (returns `true` without change);
`false` otherwise. -/
def transmit_order (om : OrderManager) (sc : SimpleContract) :
    Bool × OrderManager :=
  match omLookup om sc with
  | some e =>
    match e.state with
    | OMState.PENDING => (true, omSet om sc { e with state := OMState.TRANSMITTED })
    | OMState.TRANSMITTED => (true, om)
    | OMState.COOLOFF => (false, om)
  | none => (false, om)

/-- Modelled from the spec: `OrderManager.finalize_order` of
`src/model/data.py` (absent from src/) — moves `TRANSMITTED` to `COOLOFF`
on a terminal fill/cancel event; `false` with no change otherwise. -/
def finalize_order (om : OrderManager) (sc : SimpleContract) :
    Bool × OrderManager :=
  match omLookup om sc with
  | some e =>
    if e.state = OMState.TRANSMITTED then
      (true, omSet om sc { e with state := OMState.COOLOFF })
    else (false, om)
  | none => (false, om)

/-- Modelled from the spec: `OrderManager.clear_untransmitted` of
`src/model/data.py` (absent from src/) — removes and returns the order id
only when the entry is `PENDING`; a no-op returning nothing otherwise. -/
def clear_untransmitted (om : OrderManager) (sc : SimpleContract) :
    Option Nat × OrderManager :=
  match omLookup om sc with
  | some e =>
    if e.state = OMState.PENDING then
      (some e.oid, om.filter (fun p => p.1 ≠ sc))
    else (none, om)
  | none => (none, om)

/-! ## Placement and callbacks (`src/app/autorebalance.py`) -/

/-- The externally observable actions the embedded app methods perform, in
the order performed: broker id request (`reqIds`), blocking rendezvous
receipt of the fresh id, cancellation of a retracted order, the admission-
rejected debug log, the broker placement call, position refresh request,
log lines, and a failed `assert`. -/
inductive BrokerEv where
  | reqIds : BrokerEv
  | rendezvousId : Nat → BrokerEv
  | cancelOrder : Nat → BrokerEv
  | rejectLog : SimpleContract → BrokerEv
  | placeOrder : Nat → SimpleContract → BrokerEv
  | reqPositions : BrokerEv
  | logDebug : BrokerEv
  | logInfo : BrokerEv
  | assertFailure : BrokerEv
deriving DecidableEq, Repr

/-- `AutorebalanceApp.clear_any_untransmitted_order`: retracts the
instrument's entry when (and only when) it is an untransmitted `PENDING`
entry, cancelling the cleared broker order id via `safe_cancel_order`. -/
def clear_any_untransmitted_order (om : OrderManager) (sc : SimpleContract) :
    OrderManager × List BrokerEv :=
  match clear_untransmitted om sc with
  | (some oid, om2) => (om2, [BrokerEv.cancelOrder oid])
  | (none, om2) => (om2, [])

/-- `AutorebalanceApp.safe_place_order`: asserts the `_audited` marker, then
requests a broker order id (`reqIds`) and blocks on the rendezvous queue
for the matching reply (`freshId`), then retracts any untransmitted entry
for the instrument, then admits the new entry into the Order Manager —
returning after a debug log, with no placement, if admission fails — and
only then issues the broker placement call. -/
def safe_place_order (om : OrderManager) (sc : SimpleContract)
    (order : IBOrder) (freshId : Nat) : OrderManager × List BrokerEv :=
  if order.audited = false then (om, [BrokerEv.assertFailure])
  else
    let acquire := [BrokerEv.reqIds, BrokerEv.rendezvousId freshId]
    let cleared := clear_any_untransmitted_order om sc
    match enter_order cleared.1 sc freshId order with
    | none => (cleared.1, acquire ++ cleared.2 ++ [BrokerEv.rejectLog sc])
    | some om2 =>
      (om2, acquire ++ cleared.2 ++ [BrokerEv.placeOrder freshId sc])

/-- `AutorebalanceApp.orderStatus`: the broker order-status callback.
Asserts the order is tracked; drops the callback at a debug log when the
entry is in `COOLOFF`; otherwise asserts the entry is `TRANSMITTED` (or
transmits it), and on a terminal "Filled" status finalizes the entry to
`COOLOFF`, logs, and requests a position refresh; "Cancelled" finalizes and
logs; any other status is logged at debug. -/
def orderStatus (om : OrderManager) (oid : Nat) (status : String) :
    OrderManager × List BrokerEv :=
  match get_nc om oid with
  | none => (om, [BrokerEv.assertFailure])
  | some sc =>
    match get_order om sc, get_state om sc with
    | some _, some st =>
      if st = OMState.COOLOFF then (om, [BrokerEv.logDebug])
      else
        let trans := if st = OMState.TRANSMITTED then (true, om)
          else transmit_order om sc
        if trans.1 = false then (trans.2, [BrokerEv.assertFailure])
        else if status = "Filled" then
          match finalize_order trans.2 sc with
          | (true, om2) => (om2, [BrokerEv.logInfo, BrokerEv.reqPositions])
          | (false, om2) => (om2, [BrokerEv.assertFailure])
        else if status = "Cancelled" then
          match finalize_order trans.2 sc with
          | (true, om2) => (om2, [BrokerEv.logInfo])
          | (false, om2) => (om2, [BrokerEv.assertFailure])
        else (trans.2, [BrokerEv.logDebug])
    | _, _ => (om, [BrokerEv.assertFailure])

/-- Outcome of the broker order-id callback `next_requested_id`. -/
inductive NextIdOutcome where
  | enqueued : Option Nat → NextIdOutcome
  | killed : NextIdOutcome
deriving DecidableEq, Repr

/-- `AutorebalanceApp.next_requested_id`: the id callback enqueues the id
with the non-blocking `put_nowait` into `order_id_queue`, a queue built
with `maxsize=1` (modelled as a single `Option Nat` slot); if the slot is
already full the `Full` exception is caught and the process is killed. -/
def next_requested_id (slot : Option Nat) (oid : Nat) : NextIdOutcome :=
  match slot with
  | none => NextIdOutcome.enqueued (some oid)
  | some _ => NextIdOutcome.killed

/-! ## Error channel (`PERMIT_ERROR` and `AutorebalanceApp.error`) -/

/-- `PERMIT_ERROR` of `src/security.py`: the fixed catalogue of broker error
codes downgraded to non-fatal log levels. -/
def PERMIT_ERROR : List (Int × String) :=
  [(202, "WARNING"), (504, "DEBUG"), (2103, "WARNING"), (2104, "DEBUG"),
   (2106, "DEBUG"), (2108, "DEBUG"), (2158, "DEBUG")]

/-- Dictionary lookup `PERMIT_ERROR[error_code]`. -/
def lookupPermit (c : Int) : Option String :=
  (PERMIT_ERROR.find? (fun p => p.1 = c)).map (fun p => p.2)

/-- Outcome of one error-channel callback: full process shutdown via
`kill_app`, or the process continuing after exactly one log line at the
given level. -/
inductive ErrorOutcome where
  | shutdown : ErrorOutcome
  | logged : String → ErrorOutcome
deriving DecidableEq, Repr

/-- `AutorebalanceApp.error`: the rate-limit code 420 kills the process;
a code in `PERMIT_ERROR` emits one log line at its assigned level and the
process continues; every other code kills the process. -/
def errorCallback (error_code : Int) : ErrorOutcome :=
  if error_code = 420 then ErrorOutcome.shutdown
  else
    match lookupPermit error_code with
    | some lvl => ErrorOutcome.logged lvl
    | none => ErrorOutcome.shutdown

/-! ## Liveness (`pricing_age`, `is_live`) -/

/-- `OHLCBar` of `src/model/data.py`: a per-instrument bar with its capture
timestamp `t` (seconds) and open/high/low/close prices. -/
structure OHLCBar where
  t : ℚ
  op : ℚ
  hi : ℚ
  lo : ℚ
  c : ℚ
deriving DecidableEq, Repr

/-- `Policy.MAX_PRICING_AGE` of `src/security.py` (seconds). -/
def MAX_PRICING_AGE : ℚ := 20

/-- `Policy.MAX_ACCT_SUM_AGE` of `src/security.py` (seconds). -/
def MAX_ACCT_SUM_AGE : ℚ := 120

/-- The account snapshot fields `is_live` reads.  Modelled from the spec:
`AcctState` of `src/model/data.py` (absent from src/) records a capture
timestamp at construction, and `summary_age` is wall-clock now minus it. -/
structure AcctState where
  created : ℚ
deriving DecidableEq, Repr

/-- `AcctState.summary_age`, the snapshot's age at wall-clock time `now`. -/
def summary_age (st : AcctState) (now : ℚ) : ℚ := now - st.created

/-- `AutorebalanceApp.pricing_age`: the age of the oldest price bar over the
target composition's instruments, infinite (`⊤`) when any instrument has no
bar. -/
def pricing_age (targets : List SimpleContract)
    (prices : SimpleContract → Option OHLCBar) (now : ℚ) : WithTop ℚ :=
  targets.foldl
    (fun age sc =>
      match prices sc with
      | none => ⊤
      | some bar => max age ((now - bar.t : ℚ) : WithTop ℚ))
    ((0 : ℚ) : WithTop ℚ)

/-- `AutorebalanceApp.is_live`: an account snapshot exists and is younger
than `MAX_ACCT_SUM_AGE`, and every target instrument's price sample is
younger than `MAX_PRICING_AGE`. -/
def is_live (acct : Option AcctState) (targets : List SimpleContract)
    (prices : SimpleContract → Option OHLCBar) (now : ℚ) : Bool :=
  match acct with
  | none => false
  | some st =>
    decide (summary_age st now < MAX_ACCT_SUM_AGE) &&
      decide (pricing_age targets prices now < ((MAX_PRICING_AGE : ℚ) : WithTop ℚ))

/-! ## Drawdown and target margin use -/

/-- The failures the rebalance-engine properties can raise. -/
inductive AppFailure where
  | livenessError : AppFailure
  | assertionError : AppFailure
deriving DecidableEq, Repr

/-- The mark-to-market value of the target composition,
`sum(composition[sc] * portfolio_prices[sc].c)`.  The missing-price default
0 is unreachable on the code path, which runs only when `is_live` holds for
the same composition. -/
def port_price (comp : List (SimpleContract × ℚ))
    (prices : SimpleContract → Option OHLCBar) : ℚ :=
  comp.foldl (fun acc p => acc + p.2 * ((prices p.1).elim 0 (fun b => b.c))) 0

/-- `AutorebalanceApp.effective_drawdown`: raises `LivenessError` when not
live; otherwise computes `1 - port_price / dd_reference_ath` and asserts it
lies in `[0, 1)`. -/
def effective_drawdown (acct : Option AcctState)
    (comp : List (SimpleContract × ℚ))
    (prices : SimpleContract → Option OHLCBar) (now : ℚ)
    (dd_reference_ath : ℚ) : Except AppFailure ℚ :=
  if is_live acct (comp.map (fun p => p.1)) prices now = false then
    Except.error AppFailure.livenessError
  else
    if 0 ≤ 1 - port_price comp prices / dd_reference_ath ∧
        1 - port_price comp prices / dd_reference_ath < 1 then
      Except.ok (1 - port_price comp prices / dd_reference_ath)
    else Except.error AppFailure.assertionError

/-- `AutorebalanceApp.get_target_margin_use`: raises `LivenessError` when
not live; otherwise returns
`min(mu_at_ath + dd_coef * effective_drawdown, MARGIN_USAGE.block_level - 0.01)`. -/
def get_target_margin_use (acct : Option AcctState)
    (comp : List (SimpleContract × ℚ))
    (prices : SimpleContract → Option OHLCBar) (now : ℚ)
    (dd_reference_ath mu_at_ath dd_coef : ℚ) : Except AppFailure ℚ :=
  if is_live acct (comp.map (fun p => p.1)) prices now = false then
    Except.error AppFailure.livenessError
  else
    match effective_drawdown acct comp prices now dd_reference_ath with
    | Except.error e => Except.error e
    | Except.ok dd =>
      Except.ok (min (mu_at_ath + dd_coef * dd)
        (Policy.MARGIN_USAGE.block_level - 0.01))

/-! ## Configuration (`AutorebalanceConfig.read_config`) -/

/-- The exceptions startup configuration reading can raise. -/
inductive PyFault where
  | keyError : String → PyFault
  | attributeError : String → PyFault
  | typeError : PyFault
  | securityFault : PyFault
  | assertionFailed : PyFault
deriving DecidableEq, Repr

/-- The `[strategy]` section: `getfloat`/`getint` of a missing key returns
`None` (`none`); a present key holds its parsed value. -/
structure StrategySection where
  dd_reference_ath : Option ℚ
  mu_at_ath : Option ℚ
  dd_coef : Option ℚ
  misalloc_min_dollars : Option ℚ
  misalloc_min_frac : Option ℚ
  misalloc_frac_force_elbow : Option ℚ
  misalloc_frac_force_coef : Option ℚ
  min_margin_req : Option ℚ
deriving DecidableEq, Repr

/-- The `[orders]` section. -/
structure OrdersSection where
  order_timeout : Option ℚ
  max_slippage : Option ℚ
deriving DecidableEq, Repr

/-- The `[app]` section. -/
structure AppSection where
  rebalance_freq : Option ℚ
  liveness_timeout : Option ℚ
  armed : Option Bool
deriving DecidableEq, Repr

/-- A parsed configuration file: a missing section is `none` and raises
`KeyError` on subscript. -/
structure RawConfig where
  strategy : Option StrategySection
  orders : Option OrdersSection
  app : Option AppSection
deriving DecidableEq, Repr

/-- The validated immutable record `AutorebalanceConfig`. -/
structure ARConfig where
  dd_reference_ath : ℚ
  mu_at_ath : ℚ
  dd_coef : ℚ
  misalloc_min_dollars : ℚ
  misalloc_min_frac : ℚ
  misalloc_frac_force_elbow : ℚ
  misalloc_frac_force_coef : ℚ
  min_margin_req : ℚ
  order_timeout : ℚ
  max_slippage : ℚ
  rebalance_freq : ℚ
  liveness_timeout : ℚ
  armed : Bool
deriving DecidableEq, Repr

/-- A rule's `validate` applied to an optional config value: a missing value
(`None`) fails the comparison with `TypeError`; a `SecurityFault` from the
rule propagates; otherwise the value is returned. -/
def validateOpt (r : ThreeTierGeneric) (ans : String) (v : Option ℚ) :
    Except PyFault ℚ :=
  match v with
  | none => Except.error PyFault.typeError
  | some q =>
    match r.validate ans q with
    | ValidateOutcome.fault _ => Except.error PyFault.securityFault
    | ValidateOutcome.ok w _ => Except.ok w

/-- Python attribute access `Policy.<a>` as an `Except`: `AttributeError`
when the `Policy` class body defines no such rule. -/
def policyAttr (a : String) : Except PyFault ThreeTierGeneric :=
  match Policy.attr a with
  | some r => Except.ok r
  | none => Except.error (PyFault.attributeError a)

/-- `AutorebalanceConfig.read_config` followed by `__post_init__`, with the
keyword arguments evaluated in the order the source writes them.  Note the
fifth strategy value is validated through `Policy.MISALLOC_FRACTION`, an
attribute the `Policy` class of `src/security.py` does not define. -/
def read_config (ans : String) (cfg : RawConfig) : Except PyFault ARConfig :=
  match cfg.strategy with
  | none => Except.error (PyFault.keyError "strategy")
  | some strategy =>
  match cfg.orders with
  | none => Except.error (PyFault.keyError "orders")
  | some orders =>
  match policyAttr "ATH_MARGIN_USE" with
  | Except.error e => Except.error e
  | Except.ok rMu =>
  match validateOpt rMu ans strategy.mu_at_ath with
  | Except.error e => Except.error e
  | Except.ok mu_at_ath =>
  match policyAttr "DRAWDOWN_COEFFICIENT" with
  | Except.error e => Except.error e
  | Except.ok rDd =>
  match validateOpt rDd ans strategy.dd_coef with
  | Except.error e => Except.error e
  | Except.ok dd_coef =>
  match policyAttr "MISALLOC_DOLLARS" with
  | Except.error e => Except.error e
  | Except.ok rMd =>
  match validateOpt rMd ans strategy.misalloc_min_dollars with
  | Except.error e => Except.error e
  | Except.ok misalloc_min_dollars =>
  match policyAttr "MISALLOC_FRACTION" with
  | Except.error e => Except.error e
  | Except.ok rMf =>
  match validateOpt rMf ans strategy.misalloc_min_frac with
  | Except.error e => Except.error e
  | Except.ok misalloc_min_frac =>
  match policyAttr "MARGIN_REQ" with
  | Except.error e => Except.error e
  | Except.ok rMr =>
  match validateOpt rMr ans strategy.min_margin_req with
  | Except.error e => Except.error e
  | Except.ok min_margin_req =>
  match cfg.app with
  | none => Except.error (PyFault.keyError "app")
  | some app =>
  match strategy.dd_reference_ath, strategy.misalloc_frac_force_elbow,
      strategy.misalloc_frac_force_coef, app.rebalance_freq,
      app.liveness_timeout, app.armed, orders.order_timeout,
      orders.max_slippage with
  | some ddr, some elbow, some coef, some freq, some ltm, some armed,
      some otm, some slip =>
    if elbow ≥ misalloc_min_frac ∧ misalloc_min_frac > 1 ∧ coef > 0 then
      Except.ok ⟨ddr, mu_at_ath, dd_coef, misalloc_min_dollars,
        misalloc_min_frac, elbow, coef, min_margin_req, otm, slip, freq,
        ltm, armed⟩
    else Except.error PyFault.assertionFailed
  | _, _, _, _, _, _, _, _ => Except.error PyFault.assertionFailed

/-- C3: `audit_order` marks an order audited and returns it exactly when the
order type is "MIDPRICE", the process is armed or the order does not
transmit, and the order does not route outside regular trading hours; and
`safe_place_order` asserts the audited marker before anything else, so an
unaudited order produces no broker action at all — in particular no
placement call. -/
theorem audit_gate_guards_placement (armed : Bool) (o : IBOrder)
    (om : OrderManager) (sc : SimpleContract) (fid : Nat) :
    ((audit_order armed o).isSome ↔
      (o.orderType = "MIDPRICE" ∧ (armed = true ∨ o.transmit = false) ∧
        o.outsideRth = false)) ∧
    (∀ o2, audit_order armed o = some o2 →
      o2 = { o with audited := true } ∧ o2.audited = true) ∧
    (o.audited = false →
      safe_place_order om sc o fid = (om, [BrokerEv.assertFailure])) ∧
    (o.audited = false → ∀ pid psc,
      BrokerEv.placeOrder pid psc ∉ (safe_place_order om sc o fid).2) := by
  refine ⟨?_, ?_, ?_, ?_⟩
  · by_cases h : (o.orderType = "MIDPRICE") ∧ (armed = true ∨ o.transmit = false) ∧
        o.outsideRth = false <;> simp [audit_order, h]
  · intro o2 h2
    unfold audit_order at h2
    split at h2
    · exact ⟨(Option.some_injective _ h2).symm,
        by rw [← (Option.some_injective _ h2)]⟩
    · exact absurd h2 (by simp)
  · intro h
    simp [safe_place_order, h]
  · intro h pid psc
    simp [safe_place_order, h]

/-- C8: the error-channel callback kills the process on the rate-limit code
420; each code of the permitted catalogue produces exactly one log line at
its assigned non-fatal level and the process continues; every code outside
the catalogue kills the process; and a logged outcome only ever arises from
a catalogue code at its assigned level. -/
theorem error_channel_catalogue (c : Int) :
    errorCallback 420 = ErrorOutcome.shutdown ∧
    errorCallback 202 = ErrorOutcome.logged "WARNING" ∧
    errorCallback 504 = ErrorOutcome.logged "DEBUG" ∧
    errorCallback 2103 = ErrorOutcome.logged "WARNING" ∧
    errorCallback 2104 = ErrorOutcome.logged "DEBUG" ∧
    errorCallback 2106 = ErrorOutcome.logged "DEBUG" ∧
    errorCallback 2108 = ErrorOutcome.logged "DEBUG" ∧
    errorCallback 2158 = ErrorOutcome.logged "DEBUG" ∧
    (c ∉ ([202, 504, 2103, 2104, 2106, 2108, 2158] : List Int) →
      errorCallback c = ErrorOutcome.shutdown) ∧
    (∀ lvl, errorCallback c = ErrorOutcome.logged lvl →
      (c, lvl) ∈ PERMIT_ERROR) := by
  refine ⟨rfl, rfl, rfl, rfl, rfl, rfl, rfl, rfl, ?_, ?_⟩
  · intro h
    simp only [List.mem_cons, List.not_mem_nil, or_false] at h
    push_neg at h
    obtain ⟨h1, h2, h3, h4, h5, h6, h7⟩ := h
    by_cases h420 : c = 420
    · simp [errorCallback, h420]
    · simp [errorCallback, h420, lookupPermit, PERMIT_ERROR, List.find?,
        Ne.symm h1, Ne.symm h2, Ne.symm h3, Ne.symm h4, Ne.symm h5,
        Ne.symm h6, Ne.symm h7]
  · intro lvl h
    unfold errorCallback at h
    split at h
    · exact absurd h (by simp)
    · cases hl : lookupPermit c with
      | none => rw [hl] at h; exact absurd h (by simp)
      | some l =>
        rw [hl] at h
        have hlv : l = lvl := by
          simpa using h
        unfold lookupPermit at hl
        cases hf : PERMIT_ERROR.find? (fun p => p.1 = c) with
        | none => rw [hf] at hl; exact absurd hl (by simp)
        | some pr =>
          rw [hf] at hl
          have hmem := List.mem_of_find?_eq_some hf
          have hfst : pr.1 = c := by
            have := List.find?_some hf
            simpa using this
          have hsnd : pr.2 = lvl := by
            rw [← hlv]
            simpa using hl
          have : (c, lvl) = pr := by
            rw [← hfst, ← hsnd]
          rw [this]
          exact hmem

/-- C10: the order-id rendezvous holds at most one outstanding id: the queue
is a single slot, the id callback stores the id without blocking when the
slot is free, and a callback arriving while an id is already pending kills
the process instead of queueing, dropping or overwriting the id. -/
theorem order_id_single_slot (slot : Option Nat) (oid : Nat) :
    (slot = none →
      next_requested_id slot oid = NextIdOutcome.enqueued (some oid)) ∧
    (∀ j, slot = some j → next_requested_id slot oid = NextIdOutcome.killed) ∧
    (∀ j q, next_requested_id (some j) oid ≠ NextIdOutcome.enqueued q) := by
  refine ⟨?_, ?_, ?_⟩
  · intro h; simp [next_requested_id, h]
  · intro j h; simp [next_requested_id, h]
  · intro j q; simp [next_requested_id]

/-- An order that has passed audit (the `_audited` marker is set). -/
def ordAudited : IBOrder := ⟨"MIDPRICE", false, false, true⟩

/-- A book with one untransmitted (`PENDING`) entry for "AAPL", broker
order id 3. -/
def omPendingBook : OrderManager :=
  [("AAPL", ⟨3, ordAudited, OMState.PENDING⟩)]

/-- A book with one live (`TRANSMITTED`) entry for "AAPL", broker order
id 3. -/
def omTransmittedBook : OrderManager :=
  [("AAPL", ⟨3, ordAudited, OMState.TRANSMITTED⟩)]

/-- The position of the first occurrence of event `e` in trace `tr`. -/
def eventIdx (tr : List BrokerEv) (e : BrokerEv) : Nat :=
  tr.findIdx (fun x => decide (x = e))

/-- C2 counterexample: on a book holding a `PENDING` entry (id 3) for the
instrument, `safe_place_order` emits the id request and the rendezvous
receipt of the fresh id 7 *before* the retraction (`cancelOrder 3`): the
claimed ordering — retract first, then obtain the id — is false on the
code. -/
theorem placement_retracts_after_id_acquisition :
    (safe_place_order omPendingBook "AAPL" ordAudited 7).2 =
      [BrokerEv.reqIds, BrokerEv.rendezvousId 7, BrokerEv.cancelOrder 3,
        BrokerEv.placeOrder 7 "AAPL"] ∧
    BrokerEv.cancelOrder 3 ∈ (safe_place_order omPendingBook "AAPL" ordAudited 7).2 ∧
    ¬(eventIdx (safe_place_order omPendingBook "AAPL" ordAudited 7).2
        (BrokerEv.cancelOrder 3) <
      eventIdx (safe_place_order omPendingBook "AAPL" ordAudited 7).2
        (BrokerEv.rendezvousId 7)) := by
  refine ⟨by decide, by decide, by decide⟩

/-- C2 amended: for every audited order, `safe_place_order` first obtains a
fresh broker order id by the blocking no-timeout rendezvous, then retracts
any existing not-yet-transmitted entry of the instrument (exactly one
cancellation when the entry was `PENDING`, none otherwise), then admits the
new entry into the Order Manager — returning without placing, after the
rejection log, if admission fails because an entry already exists — and
only then issues the broker placement call, as the final action. -/
theorem placement_sequence (om : OrderManager) (sc : SimpleContract)
    (o : IBOrder) (fid : Nat) (haud : o.audited = true) :
    (∀ om2,
      enter_order (clear_any_untransmitted_order om sc).1 sc fid o = some om2 →
      safe_place_order om sc o fid =
        (om2, [BrokerEv.reqIds, BrokerEv.rendezvousId fid] ++
          (clear_any_untransmitted_order om sc).2 ++
          [BrokerEv.placeOrder fid sc])) ∧
    (enter_order (clear_any_untransmitted_order om sc).1 sc fid o = none →
      safe_place_order om sc o fid =
        ((clear_any_untransmitted_order om sc).1,
          [BrokerEv.reqIds, BrokerEv.rendezvousId fid] ++
            (clear_any_untransmitted_order om sc).2 ++
            [BrokerEv.rejectLog sc])) ∧
    ((clear_any_untransmitted_order om sc).2 = [] ∨
      ∃ cid, (clear_any_untransmitted_order om sc).2 =
        [BrokerEv.cancelOrder cid]) ∧
    (∀ e, omLookup om sc = some e → e.state = OMState.PENDING →
      (clear_any_untransmitted_order om sc).2 =
        [BrokerEv.cancelOrder e.oid]) ∧
    (enter_order (clear_any_untransmitted_order om sc).1 sc fid o = none →
      ∀ pid psc,
        BrokerEv.placeOrder pid psc ∉ (safe_place_order om sc o fid).2) := by
  have hnf : ¬(o.audited = false) := by simp [haud]
  refine ⟨?_, ?_, ?_, ?_, ?_⟩
  · intro om2 he
    simp [safe_place_order, hnf, he]
  · intro he
    simp [safe_place_order, hnf, he]
  · unfold clear_any_untransmitted_order
    rcases hcu : clear_untransmitted om sc with ⟨cid, om2⟩
    cases cid with
    | none => left; rfl
    | some i => right; exact ⟨i, rfl⟩
  · intro e he hst
    simp [clear_any_untransmitted_order, clear_untransmitted, he, hst]
  · intro he pid psc
    simp only [safe_place_order, hnf, if_false, he]
    rcases hcl : (clear_any_untransmitted_order om sc) with ⟨om2, evs⟩
    have hev : evs = [] ∨ ∃ cid, evs = [BrokerEv.cancelOrder cid] := by
      unfold clear_any_untransmitted_order at hcl
      rcases hcu : clear_untransmitted om sc with ⟨cid, om3⟩
      rw [hcu] at hcl
      cases cid with
      | none => left; cases hcl; rfl
      | some i => right; exact ⟨i, by cases hcl; rfl⟩
    rcases hev with h0 | ⟨cid, h1⟩
    · simp [h0]
    · simp [h1]

/-- C2 witness: on a book whose entry for "AAPL" is already `TRANSMITTED`,
the placement aborts after the rejection log: the id is acquired, nothing is
retracted, admission fails, and no placement call is issued. -/
theorem placement_sequence_witness :
    safe_place_order omTransmittedBook "AAPL" ordAudited 7 =
      (omTransmittedBook,
        [BrokerEv.reqIds, BrokerEv.rendezvousId 7, BrokerEv.rejectLog "AAPL"]) := by
  have h := (placement_sequence omTransmittedBook "AAPL" ordAudited 7 rfl).2.1
    (by decide)
  rw [h]
  decide

/-- Replacing the entry of an instrument that has one makes the lookup
return the replacement. -/
theorem omLookup_omSet (om : OrderManager) (sc : SimpleContract)
    (e e2 : OMEntry) (h : omLookup om sc = some e) :
    omLookup (omSet om sc e2) sc = some e2 := by
  induction om with
  | nil => simp [omLookup] at h
  | cons p rest ih =>
    by_cases hp : p.1 = sc
    · simp [omLookup, omSet, List.find?, hp]
    · have htail : omLookup rest sc = some e := by
        simpa [omLookup, List.find?_cons_of_neg, hp] using h
      have := ih htail
      simpa [omLookup, omSet, List.find?_cons_of_neg, hp] using this

/-- C5: an order-status callback for an instrument whose entry is in
`COOLOFF` is silently dropped at a debug log with no state change; a
"Filled" callback for an entry in `TRANSMITTED` state moves that entry to
`COOLOFF` and issues exactly one position-refresh request. -/
theorem order_status_cooloff_and_fill (om : OrderManager) (oid : Nat)
    (status : String) (sc : SimpleContract) (e : OMEntry)
    (hnc : get_nc om oid = some sc) (he : omLookup om sc = some e) :
    (e.state = OMState.COOLOFF →
      orderStatus om oid status = (om, [BrokerEv.logDebug])) ∧
    (e.state = OMState.TRANSMITTED → status = "Filled" →
      orderStatus om oid status =
        (omSet om sc { e with state := OMState.COOLOFF },
          [BrokerEv.logInfo, BrokerEv.reqPositions]) ∧
      omLookup (orderStatus om oid status).1 sc =
        some { e with state := OMState.COOLOFF } ∧
      (orderStatus om oid status).2.count BrokerEv.reqPositions = 1) := by
  constructor
  · intro hst
    simp [orderStatus, hnc, get_order, get_state, he, hst]
  · intro hst hf
    have hres : orderStatus om oid status =
        (omSet om sc { e with state := OMState.COOLOFF },
          [BrokerEv.logInfo, BrokerEv.reqPositions]) := by
      simp [orderStatus, hnc, get_order, get_state, he, hst, hf,
        finalize_order]
    refine ⟨hres, ?_, ?_⟩
    · rw [hres]
      exact omLookup_omSet om sc e _ he
    · rw [hres]
      rfl

/-- C5 witness: on a book holding a `TRANSMITTED` entry for "AAPL" with
broker order id 3, the "Filled" callback moves the entry to `COOLOFF` and
issues one position refresh. -/
theorem order_status_fill_witness :
    orderStatus omTransmittedBook 3 "Filled" =
      ([("AAPL", ⟨3, ordAudited, OMState.COOLOFF⟩)],
        [BrokerEv.logInfo, BrokerEv.reqPositions]) := by
  have h := (order_status_cooloff_and_fill omTransmittedBook 3 "Filled"
    "AAPL" ⟨3, ordAudited, OMState.TRANSMITTED⟩ (by decide) (by decide)).2
    rfl rfl
  rw [h.1]
  decide

/-- Unfolding lemma for `pricing_age`: the fold stays below a finite bound
`q` exactly when the accumulator does and every listed instrument has a bar
younger than `q`. -/
theorem pricing_fold_lt (prices : SimpleContract → Option OHLCBar) (now q : ℚ)
    (targets : List SimpleContract) (a : WithTop ℚ) :
    (targets.foldl
        (fun age sc =>
          match prices sc with
          | none => ⊤
          | some bar => max age ((now - bar.t : ℚ) : WithTop ℚ)) a <
      ((q : ℚ) : WithTop ℚ)) ↔
    (a < ((q : ℚ) : WithTop ℚ) ∧
      ∀ sc ∈ targets, ∃ bar, prices sc = some bar ∧ now - bar.t < q) := by
  induction targets generalizing a with
  | nil => simp
  | cons sc rest ih =>
    simp only [List.foldl_cons]
    rw [ih]
    cases hp : prices sc with
    | none =>
      simp only [hp]
      constructor
      · rintro ⟨htop, -⟩
        exact absurd htop (by simp)
      · rintro ⟨-, hall⟩
        obtain ⟨bar, hbar, -⟩ := hall sc (by simp)
        simp [hp] at hbar
    | some bar =>
      simp only [hp, max_lt_iff, WithTop.coe_lt_coe, List.forall_mem_cons]
      constructor
      · rintro ⟨⟨ha, hb⟩, hrest⟩
        exact ⟨ha, ⟨bar, rfl, hb⟩, hrest⟩
      · rintro ⟨ha, ⟨bar2, hbar2, hb2⟩, hrest⟩
        have : bar2 = bar := (Option.some_injective _ hbar2).symm
        exact ⟨⟨ha, this ▸ hb2⟩, hrest⟩

/-- C4: `is_live` is true iff an account snapshot exists, is younger than
the 120-second account-staleness threshold, and every target instrument has
a price sample younger than the 20-second pricing-staleness threshold; one
missing or stale target sample makes `is_live` false regardless of
everything else. -/
theorem is_live_iff (acct : Option AcctState)
    (targets : List SimpleContract)
    (prices : SimpleContract → Option OHLCBar) (now : ℚ) :
    (is_live acct targets prices now = true ↔
      ∃ st, acct = some st ∧ summary_age st now < MAX_ACCT_SUM_AGE ∧
        ∀ sc ∈ targets, ∃ bar, prices sc = some bar ∧
          now - bar.t < MAX_PRICING_AGE) ∧
    (∀ sc ∈ targets,
      (prices sc = none ∨
        ∃ bar, prices sc = some bar ∧ MAX_PRICING_AGE ≤ now - bar.t) →
      is_live acct targets prices now = false) ∧
    MAX_ACCT_SUM_AGE = 120 ∧ MAX_PRICING_AGE = 20 := by
  have hmain : is_live acct targets prices now = true ↔
      ∃ st, acct = some st ∧ summary_age st now < MAX_ACCT_SUM_AGE ∧
        ∀ sc ∈ targets, ∃ bar, prices sc = some bar ∧
          now - bar.t < MAX_PRICING_AGE := by
    cases acct with
    | none => simp [is_live]
    | some st =>
      simp only [is_live, Bool.and_eq_true, decide_eq_true_eq,
        Option.some.injEq]
      rw [pricing_age, pricing_fold_lt]
      constructor
      · rintro ⟨hage, h0, hall⟩
        exact ⟨st, rfl, hage, hall⟩
      · rintro ⟨st2, hst2, hage, hall⟩
        cases hst2
        refine ⟨hage, ?_, hall⟩
        rw [WithTop.coe_lt_coe]
        norm_num [MAX_PRICING_AGE]
  refine ⟨hmain, ?_, rfl, rfl⟩
  intro sc hsc hbad
  by_contra hlive
  simp only [Bool.not_eq_false] at hlive
  obtain ⟨st, -, -, hall⟩ := hmain.mp hlive
  obtain ⟨bar, hbar, hfresh⟩ := hall sc hsc
  rcases hbad with hnone | ⟨bar2, hbar2, hstale⟩
  · rw [hnone] at hbar
    exact absurd hbar (by simp)
  · rw [hbar2] at hbar
    have : bar = bar2 := (Option.some_injective _ hbar).symm
    rw [this] at hfresh
    exact absurd hfresh (not_lt.mpr hstale)

/-- A concrete fresh price bar for the sample instrument "A". -/
def sampleBar : OHLCBar := ⟨0, 50, 50, 50, 50⟩

/-- A concrete pricing map holding only "A". -/
def samplePrices : SimpleContract → Option OHLCBar :=
  fun s => if s = "A" then some sampleBar else none

/-- A concrete one-instrument target composition. -/
def sampleComp : List (SimpleContract × ℚ) := [("A", 1)]

/-- Modelled from the spec: `AcctState.get_loan_at_target_utilization` of
`src/model/data.py` (absent from src/) — derives the target loan from the
account state and the target margin utilization, passing the utilization
through the matching `MARGIN_USAGE` risk rule before use (spec §4.3 steps
2-3: "each input/output passed through the matching Risk Policy rule",
"Derive target loan from account equity and target margin utilization
(external formula, account-state collaborator)").  The spec leaves the loan
arithmetic to the external collaborator, abstracted here as `loan_formula`;
only the rule gate is fixed. -/
def get_loan_at_target_utilization (loan_formula : ℚ → ℚ) (ans : String)
    (target_utilization : ℚ) : Except PyFault ℚ :=
  match Policy.MARGIN_USAGE.validate ans target_utilization with
  | ValidateOutcome.fault _ => Except.error PyFault.securityFault
  | ValidateOutcome.ok w _ => Except.ok (loan_formula w)

/-- A value strictly below the `MARGIN_USAGE` block level passes the rule:
`validate` returns it unchanged under the affirmative answer, and no answer
can make the rule reject it at block tier. -/
theorem margin_usage_accepts_below_block (v : ℚ)
    (hv : v < Policy.MARGIN_USAGE.block_level) :
    (∃ t, Policy.MARGIN_USAGE.validate "YES" v = ValidateOutcome.ok v t) ∧
    ∀ a, Policy.MARGIN_USAGE.validate a v ≠ ValidateOutcome.fault false := by
  have hv8 : ¬((0.80 : ℚ) < v) := by
    simp only [Policy.MARGIN_USAGE] at hv
    exact not_lt.mpr (le_of_lt hv)
  constructor
  · by_cases hc : (0.60 : ℚ) < v
    · exact ⟨Tier.confirmT, by
        simp [ThreeTierGeneric.validate, Policy.MARGIN_USAGE, cmpApply,
          hv8, hc]⟩
    · by_cases hn : (0.40 : ℚ) < v
      · exact ⟨Tier.notifyT, by
          simp [ThreeTierGeneric.validate, Policy.MARGIN_USAGE, cmpApply,
            hv8, hc, hn]⟩
      · exact ⟨Tier.debugT, by
          simp [ThreeTierGeneric.validate, Policy.MARGIN_USAGE, cmpApply,
            hv8, hc, hn]⟩
  · intro a
    by_cases hc : (0.60 : ℚ) < v
    · by_cases ha : a = "YES" <;>
        simp [ThreeTierGeneric.validate, Policy.MARGIN_USAGE, cmpApply,
          hv8, hc, ha]
    · by_cases hn : (0.40 : ℚ) < v <;>
        simp [ThreeTierGeneric.validate, Policy.MARGIN_USAGE, cmpApply,
          hv8, hc, hn]

/-- C6: when the system is live, `get_target_margin_use` returns
`min(mu_at_ath + dd_coef * effective_drawdown, MARGIN_USAGE block ceiling -
0.01)` — a value strictly below the margin-usage block level — with each
input and output passed through the matching Risk Policy rule: the
hypotheses state that `mu_at_ath` and `dd_coef` are exactly the values
their matching rules (`ATH_MARGIN_USE`, `DRAWDOWN_COEFFICIENT`) returned at
config load (so neither crosses its block level), and the returned value
passes the matching `MARGIN_USAGE` rule — it is returned unchanged, can
never be block-rejected, and flows through the loan derivation's rule gate.
When the system is not live, `LivenessError` is raised.  On a concrete live
state with drawdown 1/2, `mu_at_ath = 0.25` and `dd_coef = 2`, the clamp
binds and the result is `0.80 - 0.01 = 0.79`. -/
theorem target_margin_use_formula (acct : Option AcctState)
    (comp : List (SimpleContract × ℚ))
    (prices : SimpleContract → Option OHLCBar) (now ddr mu dc : ℚ)
    (ansMu ansDc : String) (tMu tDc : Tier)
    (hmu : Policy.ATH_MARGIN_USE.validate ansMu mu =
      ValidateOutcome.ok mu tMu)
    (hdc : Policy.DRAWDOWN_COEFFICIENT.validate ansDc dc =
      ValidateOutcome.ok dc tDc) :
    ¬(mu > Policy.ATH_MARGIN_USE.block_level) ∧
    ¬(dc > Policy.DRAWDOWN_COEFFICIENT.block_level) ∧
    (is_live acct (comp.map (fun p => p.1)) prices now = false →
      get_target_margin_use acct comp prices now ddr mu dc =
        Except.error AppFailure.livenessError) ∧
    (∀ v, get_target_margin_use acct comp prices now ddr mu dc =
        Except.ok v →
      ∃ dd, effective_drawdown acct comp prices now ddr = Except.ok dd ∧
        0 ≤ dd ∧ dd < 1 ∧ dd = 1 - port_price comp prices / ddr ∧
        v = min (mu + dc * dd) (Policy.MARGIN_USAGE.block_level - 0.01) ∧
        v < Policy.MARGIN_USAGE.block_level ∧
        (∃ t, Policy.MARGIN_USAGE.validate "YES" v =
          ValidateOutcome.ok v t) ∧
        (∀ a, Policy.MARGIN_USAGE.validate a v ≠
          ValidateOutcome.fault false) ∧
        (∀ lf : ℚ → ℚ, get_loan_at_target_utilization lf "YES" v =
          Except.ok (lf v))) ∧
    get_target_margin_use (some ⟨0⟩) sampleComp samplePrices 0 100 0.25 2 =
      Except.ok 0.79 := by
  refine ⟨?_, ?_, ?_, ?_, ?_⟩
  · intro hgt
    have hbt : cmpApply Policy.ATH_MARGIN_USE.cmp_op mu
        Policy.ATH_MARGIN_USE.block_level = true := by
      simpa [Policy.ATH_MARGIN_USE, cmpApply] using hgt
    simp [ThreeTierGeneric.validate, hbt] at hmu
  · intro hgt
    have hbt : cmpApply Policy.DRAWDOWN_COEFFICIENT.cmp_op dc
        Policy.DRAWDOWN_COEFFICIENT.block_level = true := by
      simpa [Policy.DRAWDOWN_COEFFICIENT, cmpApply] using hgt
    simp [ThreeTierGeneric.validate, hbt] at hdc
  · intro h
    simp [get_target_margin_use, h]
  · intro v hv
    unfold get_target_margin_use at hv
    by_cases hl : is_live acct (comp.map (fun p => p.1)) prices now = false
    · rw [if_pos hl] at hv
      exact absurd hv (by simp)
    · rw [if_neg hl] at hv
      cases hd : effective_drawdown acct comp prices now ddr with
      | error e =>
        rw [hd] at hv
        exact absurd hv (by simp)
      | ok dd =>
        rw [hd] at hv
        have hv2 : v = min (mu + dc * dd)
            (Policy.MARGIN_USAGE.block_level - 0.01) := by
          simpa using hv.symm
        have hbounds : 0 ≤ dd ∧ dd < 1 ∧
            dd = 1 - port_price comp prices / ddr := by
          unfold effective_drawdown at hd
          rw [if_neg hl] at hd
          split at hd
          · rename_i hcond
            have heq : dd = 1 - port_price comp prices / ddr := by
              simpa using hd.symm
            exact ⟨by rw [heq]; exact hcond.1, by rw [heq]; exact hcond.2, heq⟩
          · exact absurd hd (by simp)
        have hvlt : v < Policy.MARGIN_USAGE.block_level := by
          rw [hv2]
          calc min (mu + dc * dd) (Policy.MARGIN_USAGE.block_level - 0.01) ≤
              Policy.MARGIN_USAGE.block_level - 0.01 := min_le_right _ _
            _ < Policy.MARGIN_USAGE.block_level := by
              norm_num [Policy.MARGIN_USAGE]
        obtain ⟨⟨t, hval⟩, hnofault⟩ := margin_usage_accepts_below_block v hvlt
        exact ⟨dd, rfl, hbounds.1, hbounds.2.1, hbounds.2.2, hv2, hvlt,
          ⟨t, hval⟩, hnofault,
          fun lf => by simp [get_loan_at_target_utilization, hval]⟩
  · have hlive : is_live (some ⟨(0 : ℚ)⟩)
        (sampleComp.map (fun p => p.1)) samplePrices 0 = true := by
      norm_num [is_live, summary_age, pricing_age, sampleComp, samplePrices,
        sampleBar, MAX_PRICING_AGE, MAX_ACCT_SUM_AGE, List.foldl_cons,
        List.foldl_nil]
    have hdd : effective_drawdown (some ⟨(0 : ℚ)⟩) sampleComp samplePrices
        0 100 = Except.ok (1 / 2) := by
      unfold effective_drawdown
      rw [if_neg (by rw [hlive]; simp)]
      norm_num [port_price, sampleComp, samplePrices, sampleBar,
        List.foldl_cons, List.foldl_nil]
    unfold get_target_margin_use
    rw [if_neg (by rw [hlive]; simp), hdd]
    have hmin : min ((0.25 : ℚ) + 2 * (1 / 2))
        (Policy.MARGIN_USAGE.block_level - 0.01) = 0.79 := by
      rw [min_eq_right (by norm_num [Policy.MARGIN_USAGE])]
      norm_num [Policy.MARGIN_USAGE]
    simp only [hmin]

/-- C6 witness: the theorem applied at a concrete live state whose inputs
were admitted by their matching rules at confirm tier (`mu_at_ath = 0.25`
past `ATH_MARGIN_USE`, `dd_coef = 2` past `DRAWDOWN_COEFFICIENT`, answer
"YES"): the clamp binds and the target margin use is 0.79. -/
theorem target_margin_use_formula_witness :
    get_target_margin_use (some ⟨0⟩) sampleComp samplePrices 0 100 0.25 2 =
      Except.ok 0.79 ∧
    Policy.ATH_MARGIN_USE.validate "YES" 0.25 =
      ValidateOutcome.ok 0.25 Tier.confirmT ∧
    Policy.DRAWDOWN_COEFFICIENT.validate "YES" 2 =
      ValidateOutcome.ok 2 Tier.confirmT := by
  have hmu : Policy.ATH_MARGIN_USE.validate "YES" 0.25 =
      ValidateOutcome.ok 0.25 Tier.confirmT := by
    norm_num [ThreeTierGeneric.validate, Policy.ATH_MARGIN_USE, cmpApply]
  have hdc : Policy.DRAWDOWN_COEFFICIENT.validate "YES" 2 =
      ValidateOutcome.ok 2 Tier.confirmT := by
    norm_num [ThreeTierGeneric.validate, Policy.DRAWDOWN_COEFFICIENT,
      cmpApply]
  exact ⟨(target_margin_use_formula (some ⟨0⟩) sampleComp samplePrices 0 100
    0.25 2 "YES" "YES" Tier.confirmT Tier.confirmT hmu hdc).2.2.2.2,
    hmu, hdc⟩

/-- A complete, well-formed configuration: every required key present, every
value acceptable to its risk rule without even a confirmation prompt. -/
def sampleConfig : RawConfig :=
  ⟨some ⟨some 100000, some 0.1, some 1.0, some 700, some 1.2, some 1.5,
      some 0.5, some 0.3⟩,
    some ⟨some 300, some 0.05⟩,
    some ⟨some 60, some 300, some false⟩⟩

/-- C9: `read_config` never returns a validated record, for any
configuration and any prompt answer: the fifth strategy value is validated
through `Policy.MISALLOC_FRACTION`, an attribute the `Policy` class does
not define (its catalogue has `MISALLOCATION` and `REBALANCE_TRIGGER`), so
every call raises before construction — on the fully well-formed
`sampleConfig`, with `AttributeError` for "MISALLOC_FRACTION". -/
theorem read_config_never_succeeds :
    (∀ ans cfg, ∃ e, read_config ans cfg = Except.error e) ∧
    read_config "YES" sampleConfig =
      Except.error (PyFault.attributeError "MISALLOC_FRACTION") := by
  have hA : policyAttr "ATH_MARGIN_USE" =
      Except.ok Policy.ATH_MARGIN_USE := rfl
  have hD : policyAttr "DRAWDOWN_COEFFICIENT" =
      Except.ok Policy.DRAWDOWN_COEFFICIENT := rfl
  have hM : policyAttr "MISALLOC_DOLLARS" =
      Except.ok Policy.MISALLOC_DOLLARS := rfl
  have hF : policyAttr "MISALLOC_FRACTION" =
      Except.error (PyFault.attributeError "MISALLOC_FRACTION") := rfl
  constructor
  · intro ans cfg
    rcases hs : cfg.strategy with _ | strategy
    · exact ⟨PyFault.keyError "strategy", by simp [read_config, hs]⟩
    rcases ho : cfg.orders with _ | orders
    · exact ⟨PyFault.keyError "orders", by simp [read_config, hs, ho]⟩
    cases h1 : validateOpt Policy.ATH_MARGIN_USE ans strategy.mu_at_ath with
    | error e1 => exact ⟨e1, by simp [read_config, hs, ho, hA, h1]⟩
    | ok q1 =>
      cases h2 : validateOpt Policy.DRAWDOWN_COEFFICIENT ans
          strategy.dd_coef with
      | error e2 => exact ⟨e2, by simp [read_config, hs, ho, hA, hD, h1, h2]⟩
      | ok q2 =>
        cases h3 : validateOpt Policy.MISALLOC_DOLLARS ans
            strategy.misalloc_min_dollars with
        | error e3 =>
          exact ⟨e3, by simp [read_config, hs, ho, hA, hD, hM, h1, h2, h3]⟩
        | ok q3 =>
          exact ⟨PyFault.attributeError "MISALLOC_FRACTION",
            by simp [read_config, hs, ho, hA, hD, hM, hF, h1, h2, h3]⟩
  · have h1 : validateOpt Policy.ATH_MARGIN_USE "YES" (some 0.1) =
        Except.ok 0.1 := by
      norm_num [validateOpt, ThreeTierGeneric.validate, cmpApply,
        Policy.ATH_MARGIN_USE]
    have h2 : validateOpt Policy.DRAWDOWN_COEFFICIENT "YES" (some 1.0) =
        Except.ok 1.0 := by
      norm_num [validateOpt, ThreeTierGeneric.validate, cmpApply,
        Policy.DRAWDOWN_COEFFICIENT]
    have h3 : validateOpt Policy.MISALLOC_DOLLARS "YES" (some 700) =
        Except.ok 700 := by
      norm_num [validateOpt, ThreeTierGeneric.validate, cmpApply,
        Policy.MISALLOC_DOLLARS]
    simp [read_config, sampleConfig, hA, hD, hM, hF, h1, h2, h3]
